import Mathlib

/-!
Verification of the Todo-API service (src/main.py): a shallow embedding of
the SQLite-backed FastAPI handlers as pure functions over an explicit
database state, together with proofs of the specification's claims.

The database ("todo.db") is modelled as lists of user and todo rows plus
the AUTOINCREMENT counters.  Each HTTP handler becomes a function from the
database state (and the request data) to an `Except HTTPError` result
carrying the response and the new state; raising `HTTPException` in Python
corresponds to returning `.error`.  Nondeterministic inputs of the real
code (the random token from `secrets.token_urlsafe`, the CURRENT_TIMESTAMP
values) are passed in as explicit parameters.
-/

namespace TodoAPI

/-- An HTTP error response, mirroring `fastapi.HTTPException(status_code, detail)`. -/
structure HTTPError where
  status_code : Nat
  detail : String
deriving Repr, DecidableEq

/-- The 401 raised by `get_current_user` when no user row matches the key. -/
def invalidApiKey : HTTPError := ⟨401, "Invalid API key"⟩

/-- The 404 raised by `update_todo` / `delete_todo` when no owned row matches. -/
def todoNotFound : HTTPError := ⟨404, "Todo not found"⟩

/-- The 400 raised by `generate_api_key` on an `sqlite3.IntegrityError`. -/
def emailRegistered : HTTPError := ⟨400, "Email already registered"⟩

/-- A row of the `users` table (id, name, email UNIQUE, api_key UNIQUE, created_at). -/
structure User where
  id : Nat
  name : String
  email : String
  api_key : String
  created_at : String
deriving Repr, DecidableEq

/-- A row of the `todos` table (id, title, description nullable, status, user_id, created_at). -/
structure Todo where
  id : Nat
  title : String
  description : Option String
  status : String
  user_id : Nat
  created_at : String
deriving Repr, DecidableEq

/-- The two-valued status enumeration `Literal["pending", "completed"]`
validated by pydantic before a request reaches the handler. -/
inductive TaskStatus where
  | pending
  | completed
deriving Repr, DecidableEq

/-- The string stored in the `status` TEXT column for each enumeration value. -/
def TaskStatus.toStr : TaskStatus → String
  | .pending => "pending"
  | .completed => "completed"

/-- Request body of POST /generate-api-key (pydantic model `UserCreate`). -/
structure UserCreate where
  name : String
  email : String
deriving Repr, DecidableEq

/-- Request body of POST /todos/ (pydantic model `TodoCreate`): `title: str`
(any string, including the empty one) and `description: Optional[str] = None`. -/
structure TodoCreate where
  title : String
  description : Option String
deriving Repr, DecidableEq

/-- Request body of PUT /todos/{id} (pydantic model `TodoUpdate`).  Every
field is `Optional[... ] = None`; a JSON-absent field and an explicit JSON
null both become `None` in `todo_update.dict()`, hence both are `none` here. -/
structure TodoUpdate where
  title : Option String
  description : Option String
  status : Option TaskStatus
deriving Repr, DecidableEq

/-- The persistent state of `todo.db`: the rows of the two tables and the
next AUTOINCREMENT value of each primary key. -/
structure DBState where
  users : List User
  todos : List Todo
  next_user_id : Nat
  next_todo_id : Nat
deriving Repr, DecidableEq

/-- `get_current_user`: `SELECT * FROM users WHERE api_key = ?` then
`fetchone`; raises 401 "Invalid API key" if no row matches. -/
def get_current_user (db : DBState) (api_key : String) : Except HTTPError User :=
  match db.users.find? (fun u => u.api_key == api_key) with
  | none => .error invalidApiKey
  | some u => .ok u

/-- `generate_api_key` (POST /generate-api-key): inserts a user row with a
fresh token (passed here as the `api_key` parameter) and the default
CURRENT_TIMESTAMP (`now`).  The INSERT raises `sqlite3.IntegrityError`
when the UNIQUE constraint on `email` or on `api_key` is violated, which
the handler turns into the 400 response; otherwise the row persists and
the key is returned. -/
def generate_api_key (db : DBState) (user : UserCreate) (api_key : String) (now : String) :
    Except HTTPError (String × DBState) :=
  if db.users.any (fun u => u.email == user.email || u.api_key == api_key) then
    .error emailRegistered
  else
    .ok (api_key,
      { db with
        users := db.users ++ [⟨db.next_user_id, user.name, user.email, api_key, now⟩],
        next_user_id := db.next_user_id + 1 })

/-- `create_todo` (POST /todos/): after authentication, INSERTs a todo row
with the submitted title and description, the column defaults
`status = 'pending'` and `created_at = CURRENT_TIMESTAMP` (`now`), and
`user_id` stamped from the authenticated caller; RETURNING * hands the
full created row back. -/
def create_todo (db : DBState) (api_key : String) (todo : TodoCreate) (now : String) :
    Except HTTPError (Todo × DBState) :=
  match get_current_user db api_key with
  | .error e => .error e
  | .ok current_user =>
    let newTodo : Todo :=
      { id := db.next_todo_id, title := todo.title, description := todo.description,
        status := "pending", user_id := current_user.id, created_at := now }
    .ok (newTodo,
      { db with todos := db.todos ++ [newTodo], next_todo_id := db.next_todo_id + 1 })

/-- `read_todos` (GET /todos/): `SELECT * FROM todos WHERE user_id = ?`
with the authenticated caller's id, returning all matching rows. -/
def read_todos (db : DBState) (api_key : String) : Except HTTPError (List Todo) :=
  match get_current_user db api_key with
  | .error e => .error e
  | .ok current_user => .ok (db.todos.filter (fun t => t.user_id == current_user.id))

/-- Whether `update_fields = {k: v for k, v in todo_update.dict().items() if v is not None}`
is empty: true exactly when every field of the request body is None. -/
def TodoUpdate.isEmpty (tu : TodoUpdate) : Bool :=
  tu.title.isNone && tu.description.isNone && tu.status.isNone

/-- The effect of `UPDATE todos SET <provided fields> ...` on one row:
each field present in `update_fields` (i.e. not None) is overwritten,
every other column of the row is left unchanged. -/
def applyUpdate (tu : TodoUpdate) (t : Todo) : Todo :=
  { t with
    title := match tu.title with
      | some s => s
      | none => t.title,
    description := match tu.description with
      | some s => some s
      | none => t.description,
    status := match tu.status with
      | some s => s.toStr
      | none => t.status }

/-- `update_todo` (PUT /todos/{todo_id}): after authentication, SELECTs a
row with the given id AND the caller's user_id and raises 404 if none;
if no field was provided, returns the fetched row unchanged; otherwise
runs `UPDATE todos SET <fields> WHERE id = ? RETURNING *` (the WHERE
clause filters on id alone) and returns the first returned row. -/
def update_todo (db : DBState) (todo_id : Nat) (todo_update : TodoUpdate) (api_key : String) :
    Except HTTPError (Todo × DBState) :=
  match get_current_user db api_key with
  | .error e => .error e
  | .ok current_user =>
    match db.todos.find? (fun t => t.id == todo_id && t.user_id == current_user.id) with
    | none => .error todoNotFound
    | some todo =>
      if todo_update.isEmpty then
        .ok (todo, db)
      else
        let todos2 := db.todos.map (fun t =>
          if t.id == todo_id then applyUpdate todo_update t else t)
        match todos2.find? (fun t => t.id == todo_id) with
        | some result => .ok (result, { db with todos := todos2 })
        | none => .error todoNotFound

/-- `delete_todo` (DELETE /todos/{todo_id}): after authentication, SELECTs
a row with the given id AND the caller's user_id and raises 404 if none;
otherwise `DELETE FROM todos WHERE id = ?` removes the row(s) with that id
and a confirmation message is returned. -/
def delete_todo (db : DBState) (todo_id : Nat) (api_key : String) :
    Except HTTPError (String × DBState) :=
  match get_current_user db api_key with
  | .error e => .error e
  | .ok current_user =>
    match db.todos.find? (fun t => t.id == todo_id && t.user_id == current_user.id) with
    | none => .error todoNotFound
    | some _ =>
      .ok ("Todo deleted successfully",
        { db with todos := db.todos.filter (fun t => !(t.id == todo_id)) })

/-- Fixture: a first registered user (Alice). -/
def userA : User := ⟨1, "Alice", "alice@example.com", "key-A", "2024-01-01"⟩

/-- Fixture: a second registered user (Bob). -/
def userB : User := ⟨2, "Bob", "bob@example.com", "key-B", "2024-01-02"⟩

/-- Fixture: a task owned by Bob. -/
def taskB : Todo := ⟨5, "Walk dog", none, "pending", 2, "2024-01-03"⟩

/-- Fixture: a task owned by Alice. -/
def taskA1 : Todo := ⟨5, "Buy milk", some "2 litres", "pending", 1, "2024-01-03"⟩

/-- Fixture: both users registered; the only task belongs to Bob. -/
def dbTwoUsers : DBState := ⟨[userA, userB], [taskB], 3, 6⟩

/-- Fixture: Alice registered, no tasks. -/
def dbNoTask : DBState := ⟨[userA], [], 2, 1⟩

/-- Fixture: Alice registered and owning one task. -/
def dbOwned : DBState := ⟨[userA], [taskA1], 2, 6⟩

/- ### Helper lemmas -/

lemma find?_append_of_none {α : Type} (p : α → Bool) (l1 l2 : List α)
    (h : l1.find? p = none) : (l1 ++ l2).find? p = l2.find? p := by
  simp [List.find?_append, h]

lemma find?_exists_of_mem {α : Type} (p : α → Bool) (l : List α) (a : α)
    (ha : a ∈ l) (hpa : p a = true) : ∃ b, l.find? p = some b := by
  have hs : (l.find? p).isSome := List.find?_isSome.mpr ⟨a, ha, hpa⟩
  exact Option.isSome_iff_exists.mp hs

/- ### Claims -/

/-- Claim C1: when the authenticated caller owns no task with identifier
`tid` — which covers both "no task with that id exists at all" and "a task
with that id exists but belongs to a different user" — Update and Delete
both fail with the same fixed 404 response `todoNotFound`; since an error
result carries no successor state, no task is modified or deleted, and the
response is a constant that cannot reveal whether the task exists under
another owner. -/
theorem update_delete_not_owned_404 (db : DBState) (key : String) (u : User)
    (tid : Nat) (tu : TodoUpdate)
    (hauth : get_current_user db key = .ok u)
    (hnone : ∀ t ∈ db.todos, ¬ (t.id = tid ∧ t.user_id = u.id)) :
    update_todo db tid tu key = .error todoNotFound ∧
    delete_todo db tid key = .error todoNotFound := by
  have hfind : db.todos.find? (fun t => t.id == tid && t.user_id == u.id) = none := by
    rw [List.find?_eq_none]
    intro t ht
    simpa using hnone t ht
  constructor
  · simp [update_todo, hauth, hfind]
  · simp [delete_todo, hauth, hfind]

/-- Witness for C1, covering both hidden cases: Alice updating/deleting
id 5 when it belongs to Bob, and when no task exists at all, gets the
identical `todoNotFound` response each time. -/
theorem update_delete_not_owned_404_witness :
    (update_todo dbTwoUsers 5 ⟨some "New", none, none⟩ "key-A" = .error todoNotFound ∧
      delete_todo dbTwoUsers 5 "key-A" = .error todoNotFound) ∧
    (update_todo dbNoTask 5 ⟨some "New", none, none⟩ "key-A" = .error todoNotFound ∧
      delete_todo dbNoTask 5 "key-A" = .error todoNotFound) :=
  ⟨update_delete_not_owned_404 dbTwoUsers "key-A" userA 5 ⟨some "New", none, none⟩
      (by rfl) (by decide),
    update_delete_not_owned_404 dbNoTask "key-A" userA 5 ⟨some "New", none, none⟩
      (by rfl) (by decide)⟩

/-- Claim C2: a presented API key matching no stored user makes every
authenticated endpoint (create, list, update, delete) fail with the 401
`invalidApiKey` response; each result is an error carrying no successor
state, so no task is created, modified, deleted, or returned. -/
theorem unknown_key_unauthenticated (db : DBState) (key : String)
    (tc : TodoCreate) (now : String) (tid : Nat) (tu : TodoUpdate)
    (h : ∀ u ∈ db.users, u.api_key ≠ key) :
    get_current_user db key = .error invalidApiKey ∧
    create_todo db key tc now = .error invalidApiKey ∧
    read_todos db key = .error invalidApiKey ∧
    update_todo db tid tu key = .error invalidApiKey ∧
    delete_todo db tid key = .error invalidApiKey := by
  have hfind : db.users.find? (fun u => u.api_key == key) = none := by
    rw [List.find?_eq_none]
    intro v hv
    simpa using h v hv
  refine ⟨?_, ?_, ?_, ?_, ?_⟩
  · simp [get_current_user, hfind]
  · simp [create_todo, get_current_user, hfind]
  · simp [read_todos, get_current_user, hfind]
  · simp [update_todo, get_current_user, hfind]
  · simp [delete_todo, get_current_user, hfind]

/-- Witness for C2: the key "key-X" matches no user of the fixture, and
every endpoint answers 401. -/
theorem unknown_key_unauthenticated_witness :
    get_current_user dbTwoUsers "key-X" = .error invalidApiKey ∧
    create_todo dbTwoUsers "key-X" ⟨"T", none⟩ "2024-01-04" = .error invalidApiKey ∧
    read_todos dbTwoUsers "key-X" = .error invalidApiKey ∧
    update_todo dbTwoUsers 5 ⟨none, none, some .completed⟩ "key-X" = .error invalidApiKey ∧
    delete_todo dbTwoUsers 5 "key-X" = .error invalidApiKey :=
  unknown_key_unauthenticated dbTwoUsers "key-X" ⟨"T", none⟩ "2024-01-04" 5
    ⟨none, none, some .completed⟩ (by decide)

/-- Claim C3: List, for an authenticated caller, never fails and returns
exactly the tasks whose `user_id` is the caller's id — every task the
caller owns, no task of any other user — and the empty list when the
caller owns none. -/
theorem list_returns_exactly_owned (db : DBState) (key : String) (u : User)
    (hauth : get_current_user db key = .ok u) :
    ∃ l, read_todos db key = .ok l ∧
      (∀ t : Todo, t ∈ l ↔ t ∈ db.todos ∧ t.user_id = u.id) ∧
      ((∀ t ∈ db.todos, t.user_id ≠ u.id) → l = []) := by
  refine ⟨db.todos.filter (fun t => t.user_id == u.id), ?_, ?_, ?_⟩
  · simp [read_todos, hauth]
  · intro t
    simp [List.mem_filter]
  · intro h
    rw [List.filter_eq_nil_iff]
    intro t ht
    simpa using h t ht

/-- Witness for C3: Alice, owning nothing in a store holding Bob's task,
lists and gets the empty collection without error. -/
theorem list_returns_exactly_owned_witness :
    ∃ l, read_todos dbTwoUsers "key-A" = .ok l ∧
      (∀ t : Todo, t ∈ l ↔ t ∈ dbTwoUsers.todos ∧ t.user_id = userA.id) ∧
      ((∀ t ∈ dbTwoUsers.todos, t.user_id ≠ userA.id) → l = []) :=
  list_returns_exactly_owned dbTwoUsers "key-A" userA (by rfl)

/-- Claim C4: registering with an email an existing user already holds
fails with the 400 `emailRegistered` response and persists nothing (an
error result carries no successor state); concretely, starting from a
store without the email, a first registration succeeds and a second one
with the same email fails, leaving exactly one user row with that email. -/
theorem duplicate_email_rejected (db : DBState) (uc uc2 : UserCreate)
    (k now k2 now2 : String)
    (hemail : ∀ u ∈ db.users, u.email ≠ uc.email)
    (hkey : ∀ u ∈ db.users, u.api_key ≠ k)
    (hsame : uc2.email = uc.email) :
    (∀ (dbx : DBState) (ucx : UserCreate) (kx nowx : String),
        (∃ u ∈ dbx.users, u.email = ucx.email) →
        generate_api_key dbx ucx kx nowx = .error emailRegistered) ∧
    ∃ db1, generate_api_key db uc k now = .ok (k, db1) ∧
      generate_api_key db1 uc2 k2 now2 = .error emailRegistered ∧
      (db.users.filter (fun u => u.email == uc.email)).length = 0 ∧
      (db1.users.filter (fun u => u.email == uc.email)).length = 1 := by
  have general : ∀ (dbx : DBState) (ucx : UserCreate) (kx nowx : String),
      (∃ u ∈ dbx.users, u.email = ucx.email) →
      generate_api_key dbx ucx kx nowx = .error emailRegistered := by
    rintro dbx ucx kx nowx ⟨u, hu, he⟩
    have hany : dbx.users.any (fun v => v.email == ucx.email || v.api_key == kx) = true :=
      List.any_eq_true.mpr ⟨u, hu, by simp [he]⟩
    simp [generate_api_key, hany]
  have hany : db.users.any (fun v => v.email == uc.email || v.api_key == k) = false := by
    rw [List.any_eq_false]
    intro v hv
    simp [hemail v hv, hkey v hv]
  have hfilter0 : db.users.filter (fun u => u.email == uc.email) = [] := by
    rw [List.filter_eq_nil_iff]
    intro v hv
    simpa using hemail v hv
  refine ⟨general,
    { db with
      users := db.users ++ [⟨db.next_user_id, uc.name, uc.email, k, now⟩],
      next_user_id := db.next_user_id + 1 }, ?_, ?_, ?_, ?_⟩
  · simp [generate_api_key, hany]
  · exact general _ uc2 k2 now2
      ⟨⟨db.next_user_id, uc.name, uc.email, k, now⟩, by simp, by simp [hsame]⟩
  · simp [hfilter0]
  · simp [List.filter_append, hfilter0]

/-- Witness for C4: from an empty store, registering Alice's email twice
leaves exactly one user row with that email, the second attempt failing. -/
theorem duplicate_email_rejected_witness :
    (∀ (dbx : DBState) (ucx : UserCreate) (kx nowx : String),
        (∃ u ∈ dbx.users, u.email = ucx.email) →
        generate_api_key dbx ucx kx nowx = .error emailRegistered) ∧
    ∃ db1, generate_api_key ⟨[], [], 1, 1⟩ ⟨"Alice", "alice@example.com"⟩
        "key-A" "2024-01-01" = .ok ("key-A", db1) ∧
      generate_api_key db1 ⟨"Alia", "alice@example.com"⟩ "key-C" "2024-01-05" =
        .error emailRegistered ∧
      ((⟨[], [], 1, 1⟩ : DBState).users.filter
        (fun u => u.email == "alice@example.com")).length = 0 ∧
      (db1.users.filter (fun u => u.email == "alice@example.com")).length = 1 :=
  duplicate_email_rejected ⟨[], [], 1, 1⟩ ⟨"Alice", "alice@example.com"⟩
    ⟨"Alia", "alice@example.com"⟩ "key-A" "2024-01-01" "key-C" "2024-01-05"
    (by decide) (by decide) (by decide)

/-- Claim C5: a Create by an authenticated caller succeeds and the
persisted task carries the caller's id as owner, the default status
"pending", the submitted title, the submitted description (`none` when
omitted — `TodoCreate.description` defaults to None), the server-assigned
identifier and timestamp; the full record is returned, is stored, and a
subsequent List by the same caller returns it. -/
theorem create_roundtrip (db : DBState) (key now : String) (u : User) (tc : TodoCreate)
    (hauth : get_current_user db key = .ok u) :
    ∃ t db2, create_todo db key tc now = .ok (t, db2) ∧
      t.user_id = u.id ∧ t.status = "pending" ∧ t.title = tc.title ∧
      t.description = tc.description ∧ t.id = db.next_todo_id ∧ t.created_at = now ∧
      t ∈ db2.todos ∧
      ∃ l, read_todos db2 key = .ok l ∧ t ∈ l := by
  refine ⟨⟨db.next_todo_id, tc.title, tc.description, "pending", u.id, now⟩,
    { db with
      todos := db.todos ++ [⟨db.next_todo_id, tc.title, tc.description, "pending", u.id, now⟩],
      next_todo_id := db.next_todo_id + 1 },
    ?_, rfl, rfl, rfl, rfl, rfl, rfl, ?_, ?_⟩
  · simp [create_todo, hauth]
  · simp
  · have hauth2 : get_current_user
        { db with
          todos := db.todos ++ [⟨db.next_todo_id, tc.title, tc.description, "pending", u.id, now⟩],
          next_todo_id := db.next_todo_id + 1 } key = .ok u := hauth
    refine ⟨(db.todos ++
        ([⟨db.next_todo_id, tc.title, tc.description, "pending", u.id, now⟩] : List Todo)).filter
          (fun t2 => t2.user_id == u.id),
      by simp [read_todos, hauth2], ?_⟩
    exact List.mem_filter.mpr ⟨by simp, by simp⟩

/-- Witness for C5: Alice creates "Buy milk" with no description; the
stored task is hers, pending, with null description, and she reads it
back. -/
theorem create_roundtrip_witness :
    ∃ t db2, create_todo dbNoTask "key-A" ⟨"Buy milk", none⟩ "2024-01-03" = .ok (t, db2) ∧
      t.user_id = userA.id ∧ t.status = "pending" ∧ t.title = "Buy milk" ∧
      t.description = none ∧ t.id = dbNoTask.next_todo_id ∧ t.created_at = "2024-01-03" ∧
      t ∈ db2.todos ∧
      ∃ l, read_todos db2 "key-A" = .ok l ∧ t ∈ l :=
  create_roundtrip dbNoTask "key-A" "2024-01-03" userA ⟨"Buy milk", none⟩ (by rfl)

/-- Claim C7: deleting an owned task succeeds with the confirmation
message, removes every row with that identifier from the store while
keeping all other rows, and a second Delete of the same identifier by the
same caller fails with `todoNotFound`. -/
theorem delete_removes_and_second_404 (db : DBState) (key : String) (u : User)
    (tid : Nat) (todo0 : Todo)
    (hauth : get_current_user db key = .ok u)
    (hfind : db.todos.find? (fun t => t.id == tid && t.user_id == u.id) = some todo0) :
    ∃ db2, delete_todo db tid key = .ok ("Todo deleted successfully", db2) ∧
      (∀ t ∈ db2.todos, t.id ≠ tid) ∧
      (∀ t ∈ db.todos, t.id ≠ tid → t ∈ db2.todos) ∧
      delete_todo db2 tid key = .error todoNotFound := by
  refine ⟨{ db with todos := db.todos.filter (fun t => !(t.id == tid)) }, ?_, ?_, ?_, ?_⟩
  · simp [delete_todo, hauth, hfind]
  · intro t ht
    simpa using (List.mem_filter.mp ht).2
  · intro t ht hne
    exact List.mem_filter.mpr ⟨ht, by simpa using hne⟩
  · have hauth2 : get_current_user
        { db with todos := db.todos.filter (fun t => !(t.id == tid)) } key = .ok u := hauth
    have hfind2 : (db.todos.filter (fun t => !(t.id == tid))).find?
        (fun t => t.id == tid && t.user_id == u.id) = none := by
      rw [List.find?_eq_none]
      intro t ht
      have h2 : t.id ≠ tid := by simpa using (List.mem_filter.mp ht).2
      simp [h2]
    simp [delete_todo, hauth2, hfind2]

/-- Witness for C7: Alice deletes her task 5; it is gone and a second
delete answers 404. -/
theorem delete_removes_and_second_404_witness :
    ∃ db2, delete_todo dbOwned 5 "key-A" = .ok ("Todo deleted successfully", db2) ∧
      (∀ t ∈ db2.todos, t.id ≠ 5) ∧
      (∀ t ∈ dbOwned.todos, t.id ≠ 5 → t ∈ db2.todos) ∧
      delete_todo db2 5 "key-A" = .error todoNotFound :=
  delete_removes_and_second_404 dbOwned "key-A" userA 5 taskA1 (by rfl) (by rfl)

/-- Claim C9: a successful registration returns exactly the generated key,
appends exactly one user row carrying the submitted name and email and
that key, and resolving the returned key through `get_current_user`
yields exactly that new user — never any other user, since resolution is
a function returning this single row. -/
theorem issued_key_resolves_to_new_user (db : DBState) (uc : UserCreate)
    (k now k' : String) (db1 : DBState)
    (hok : generate_api_key db uc k now = .ok (k', db1)) :
    k' = k ∧
    ∃ nu : User,
      db1.users = db.users ++ [nu] ∧
      nu.name = uc.name ∧ nu.email = uc.email ∧ nu.api_key = k ∧
      get_current_user db1 k = .ok nu := by
  by_cases hany : db.users.any (fun v => v.email == uc.email || v.api_key == k) = true
  · simp [generate_api_key, hany] at hok
  · rw [Bool.not_eq_true] at hany
    have hall := List.any_eq_false.mp hany
    simp only [generate_api_key, hany, Bool.false_eq_true, if_false] at hok
    obtain ⟨hk, hdb⟩ := by simpa using hok
    refine ⟨hk.symm, ⟨db.next_user_id, uc.name, uc.email, k, now⟩, ?_, rfl, rfl, rfl, ?_⟩
    · rw [← hdb]
    · have hn : db.users.find? (fun v => v.api_key == k) = none := by
        rw [List.find?_eq_none]
        intro v hv
        have := hall v hv
        simp only [Bool.or_eq_true, not_or] at this
        simpa using this.2
      have husers : db1.users = db.users ++ [⟨db.next_user_id, uc.name, uc.email, k, now⟩] := by
        rw [← hdb]
      rw [get_current_user, husers, find?_append_of_none _ _ _ hn]
      simp [List.find?]

/-- Witness for C9: registering Bob in a store already holding Alice
yields a key that resolves to Bob's fresh row. -/
theorem issued_key_resolves_to_new_user_witness :
    ("key-B" : String) = "key-B" ∧
    ∃ nu : User,
      (⟨[userA, ⟨2, "Bob", "bob@example.com", "key-B", "2024-01-02"⟩], [], 3, 1⟩ : DBState).users
        = (⟨[userA], [], 2, 1⟩ : DBState).users ++ [nu] ∧
      nu.name = "Bob" ∧ nu.email = "bob@example.com" ∧ nu.api_key = "key-B" ∧
      get_current_user ⟨[userA, ⟨2, "Bob", "bob@example.com", "key-B", "2024-01-02"⟩], [], 3, 1⟩
        "key-B" = .ok nu :=
  issued_key_resolves_to_new_user ⟨[userA], [], 2, 1⟩ ⟨"Bob", "bob@example.com"⟩
    "key-B" "2024-01-02" "key-B"
    ⟨[userA, ⟨2, "Bob", "bob@example.com", "key-B", "2024-01-02"⟩], [], 3, 1⟩ (by rfl)

/-- Claim C6: an Update of an owned task changes exactly the provided
fields.  With an empty field set it succeeds and returns the fetched
record with the store untouched.  Otherwise it succeeds, leaves users and
counters alone, rewrites the store so that every row with a different
identifier is untouched (hence every other task is unchanged) and every
row with the target identifier becomes its `applyUpdate`; `applyUpdate`
keeps the identifier, the owning user and the creation timestamp, keeps
each absent field, and sets each provided field to the provided value. -/
theorem update_changes_only_provided (db : DBState) (key : String) (u : User)
    (tid : Nat) (tu : TodoUpdate) (todo0 : Todo)
    (hauth : get_current_user db key = .ok u)
    (hfind : db.todos.find? (fun t => t.id == tid && t.user_id == u.id) = some todo0) :
    (tu.isEmpty = true → update_todo db tid tu key = .ok (todo0, db)) ∧
    (tu.isEmpty = false →
      ∃ r db2, update_todo db tid tu key = .ok (r, db2) ∧
        db2.users = db.users ∧ db2.next_todo_id = db.next_todo_id ∧
        db2.next_user_id = db.next_user_id ∧
        db2.todos = db.todos.map (fun t => if t.id == tid then applyUpdate tu t else t) ∧
        (∀ t ∈ db.todos, t.id ≠ tid → t ∈ db2.todos) ∧
        r ∈ db2.todos ∧ r.id = tid) ∧
    (∀ t : Todo,
      (applyUpdate tu t).id = t.id ∧
      (applyUpdate tu t).user_id = t.user_id ∧
      (applyUpdate tu t).created_at = t.created_at ∧
      (tu.title = none → (applyUpdate tu t).title = t.title) ∧
      (tu.description = none → (applyUpdate tu t).description = t.description) ∧
      (tu.status = none → (applyUpdate tu t).status = t.status) ∧
      (∀ s, tu.title = some s → (applyUpdate tu t).title = s) ∧
      (∀ s, tu.description = some s → (applyUpdate tu t).description = some s) ∧
      (∀ s, tu.status = some s → (applyUpdate tu t).status = s.toStr)) := by
  have hid0 : (todo0.id == tid) = true := by
    have := List.find?_some hfind
    simp only [Bool.and_eq_true] at this
    exact this.1
  have hmem0 : todo0 ∈ db.todos := List.mem_of_find?_eq_some hfind
  refine ⟨?_, ?_, ?_⟩
  · intro he
    simp [update_todo, hauth, hfind, he]
  · intro he
    have himg : applyUpdate tu todo0 ∈
        db.todos.map (fun t => if t.id == tid then applyUpdate tu t else t) := by
      have := List.mem_map_of_mem
        (fun t => if t.id == tid then applyUpdate tu t else t) hmem0
      simpa [hid0] using this
    have hpid : ((applyUpdate tu todo0).id == tid) = true := by
      simpa [applyUpdate] using hid0
    obtain ⟨r, hr⟩ := find?_exists_of_mem (fun t => t.id == tid)
      (db.todos.map (fun t => if t.id == tid then applyUpdate tu t else t))
      (applyUpdate tu todo0) himg hpid
    refine ⟨r,
      { db with todos := db.todos.map (fun t => if t.id == tid then applyUpdate tu t else t) },
      ?_, rfl, rfl, rfl, rfl, ?_, ?_, ?_⟩
    · simp only [update_todo, hauth, hfind, he, Bool.false_eq_true, if_false, hr]
    · intro t ht hne
      have hcond : (t.id == tid) = false := by simpa using hne
      have := List.mem_map_of_mem
        (fun t => if t.id == tid then applyUpdate tu t else t) ht
      simpa [hcond] using this
    · exact List.mem_of_find?_eq_some hr
    · simpa using List.find?_some hr
  · intro t
    refine ⟨rfl, rfl, rfl, ?_, ?_, ?_, ?_, ?_, ?_⟩
    · intro h; simp [applyUpdate, h]
    · intro h; simp [applyUpdate, h]
    · intro h; simp [applyUpdate, h]
    · intro s h; simp [applyUpdate, h]
    · intro s h; simp [applyUpdate, h]
    · intro s h; simp [applyUpdate, h]

/-- Witness for C6: Alice updates her task 5 with only a status change;
the theorem applies with its conclusions at this concrete store. -/
theorem update_changes_only_provided_witness :
    ((⟨none, none, some .completed⟩ : TodoUpdate).isEmpty = true →
      update_todo dbOwned 5 ⟨none, none, some .completed⟩ "key-A" = .ok (taskA1, dbOwned)) ∧
    ((⟨none, none, some .completed⟩ : TodoUpdate).isEmpty = false →
      ∃ r db2, update_todo dbOwned 5 ⟨none, none, some .completed⟩ "key-A" = .ok (r, db2) ∧
        db2.users = dbOwned.users ∧ db2.next_todo_id = dbOwned.next_todo_id ∧
        db2.next_user_id = dbOwned.next_user_id ∧
        db2.todos = dbOwned.todos.map (fun t =>
          if t.id == 5 then applyUpdate ⟨none, none, some .completed⟩ t else t) ∧
        (∀ t ∈ dbOwned.todos, t.id ≠ 5 → t ∈ db2.todos) ∧
        r ∈ db2.todos ∧ r.id = 5) ∧
    (∀ t : Todo,
      (applyUpdate ⟨none, none, some .completed⟩ t).id = t.id ∧
      (applyUpdate ⟨none, none, some .completed⟩ t).user_id = t.user_id ∧
      (applyUpdate ⟨none, none, some .completed⟩ t).created_at = t.created_at ∧
      ((⟨none, none, some .completed⟩ : TodoUpdate).title = none →
        (applyUpdate ⟨none, none, some .completed⟩ t).title = t.title) ∧
      ((⟨none, none, some .completed⟩ : TodoUpdate).description = none →
        (applyUpdate ⟨none, none, some .completed⟩ t).description = t.description) ∧
      ((⟨none, none, some .completed⟩ : TodoUpdate).status = none →
        (applyUpdate ⟨none, none, some .completed⟩ t).status = t.status) ∧
      (∀ s, (⟨none, none, some .completed⟩ : TodoUpdate).title = some s →
        (applyUpdate ⟨none, none, some .completed⟩ t).title = s) ∧
      (∀ s, (⟨none, none, some .completed⟩ : TodoUpdate).description = some s →
        (applyUpdate ⟨none, none, some .completed⟩ t).description = some s) ∧
      (∀ s, (⟨none, none, some .completed⟩ : TodoUpdate).status = some s →
        (applyUpdate ⟨none, none, some .completed⟩ t).status = s.toStr)) :=
  update_changes_only_provided dbOwned "key-A" userA 5 ⟨none, none, some .completed⟩
    taskA1 (by rfl) (by rfl)

/-- Counterexample to claim C8 as stated: `TodoCreate.title` is a plain
string with no non-emptiness validation (pydantic `title: str`), so a
Create request with the empty title succeeds and a task whose title is
the empty string is stored. -/
theorem empty_title_stored :
    create_todo ⟨[⟨1, "Alice", "alice@example.com", "key-A", "2024-01-01"⟩], [], 2, 1⟩
        "key-A" ⟨"", none⟩ "2024-01-03" =
      .ok (⟨1, "", none, "pending", 1, "2024-01-03"⟩,
        ⟨[⟨1, "Alice", "alice@example.com", "key-A", "2024-01-01"⟩],
          [⟨1, "", none, "pending", 1, "2024-01-03"⟩], 2, 2⟩) ∧
    (⟨1, "", none, "pending", 1, "2024-01-03"⟩ : Todo).title = "" ∧
    (⟨1, "", none, "pending", 1, "2024-01-03"⟩ : Todo) ∈
      (⟨[⟨1, "Alice", "alice@example.com", "key-A", "2024-01-01"⟩],
        [⟨1, "", none, "pending", 1, "2024-01-03"⟩], 2, 2⟩ : DBState).todos :=
  ⟨by rfl, rfl, by simp⟩

/-- Claim C8, amended: the title is a required field of every Create
request and the persisted task's title is exactly the submitted string;
the code performs no non-emptiness check, so the empty string is accepted
and a stored task's title may be empty. -/
theorem create_title_is_submitted (db : DBState) (key now : String) (tc : TodoCreate)
    (t : Todo) (db2 : DBState)
    (hok : create_todo db key tc now = .ok (t, db2)) :
    t.title = tc.title ∧ t ∈ db2.todos := by
  rcases hu : get_current_user db key with e | u
  · simp [create_todo, hu] at hok
  · simp only [create_todo, hu] at hok
    obtain ⟨ht, hdb⟩ := by simpa using hok
    subst ht
    constructor
    · rfl
    · rw [← hdb]
      simp

/-- Witness for the amended C8: Alice's "Buy milk" task is stored with
exactly the submitted title. -/
theorem create_title_is_submitted_witness :
    (⟨1, "Buy milk", none, "pending", 1, "2024-01-03"⟩ : Todo).title = "Buy milk" ∧
    (⟨1, "Buy milk", none, "pending", 1, "2024-01-03"⟩ : Todo) ∈
      (⟨[userA], [⟨1, "Buy milk", none, "pending", 1, "2024-01-03"⟩], 2, 2⟩ : DBState).todos :=
  create_title_is_submitted dbNoTask "key-A" "2024-01-03" ⟨"Buy milk", none⟩
    ⟨1, "Buy milk", none, "pending", 1, "2024-01-03"⟩
    ⟨[userA], [⟨1, "Buy milk", none, "pending", 1, "2024-01-03"⟩], 2, 2⟩ (by rfl)

/-- Claim C10: `TodoUpdate` models both a JSON-absent field and an
explicit JSON null as `none` (the handler filters `v is not None` over
`todo_update.dict()`, where both become None), so the two are
indistinguishable by construction; a `none` description leaves every
description unchanged, and after any successful Update a stored task with
a null description corresponds to a task that already had a null
description — no Update turns a non-null description into null. -/
theorem update_never_nulls_description (tu : TodoUpdate) (db : DBState) (tid : Nat)
    (key : String) (r : Todo) (db2 : DBState)
    (hok : update_todo db tid tu key = .ok (r, db2)) :
    (∀ t : Todo, tu.description = none → (applyUpdate tu t).description = t.description) ∧
    (∀ t2 ∈ db2.todos, t2.description = none →
      ∃ t1 ∈ db.todos, t1.id = t2.id ∧ t1.description = none) ∧
    (r.description = none → ∃ t1 ∈ db.todos, t1.description = none) := by
  have happ : ∀ t : Todo, (applyUpdate tu t).description = none → t.description = none := by
    intro t h
    rcases hd : tu.description with _ | d
    · simpa [applyUpdate, hd] using h
    · simp [applyUpdate, hd] at h
  rcases hu : get_current_user db key with e | u
  · simp [update_todo, hu] at hok
  · rcases hf : db.todos.find? (fun t => t.id == tid && t.user_id == u.id) with _ | todo0
    · simp [update_todo, hu, hf] at hok
    · by_cases he : tu.isEmpty = true
      · simp only [update_todo, hu, hf, he, if_true] at hok
        obtain ⟨hr, hdb⟩ := by simpa using hok
        subst hdb
        refine ⟨fun t h => by simp [applyUpdate, h], ?_, ?_⟩
        · intro t2 ht2 hn
          exact ⟨t2, ht2, rfl, hn⟩
        · intro hn
          exact ⟨r, hr ▸ List.mem_of_find?_eq_some hf, hn⟩
      · rw [Bool.not_eq_true] at he
        rcases hf2 : (db.todos.map (fun t => if t.id == tid then applyUpdate tu t else t)).find?
            (fun t => t.id == tid) with _ | result
        · simp only [update_todo, hu, hf, he, Bool.false_eq_true, if_false, hf2] at hok
          exact Except.noConfusion hok
        · simp only [update_todo, hu, hf, he, Bool.false_eq_true, if_false, hf2] at hok
          have hpair := Except.ok.inj hok
          injection hpair with hr hdb
          subst hdb
          subst hr
          have hstore : ∀ t2 ∈ db.todos.map
                (fun t => if t.id == tid then applyUpdate tu t else t),
              t2.description = none →
              ∃ t1 ∈ db.todos, t1.id = t2.id ∧ t1.description = none := by
            intro t2 ht2 hn
            obtain ⟨t1, ht1, heq⟩ := List.mem_map.mp ht2
            by_cases hc : (t1.id == tid) = true
            · rw [if_pos hc] at heq
              refine ⟨t1, ht1, ?_, ?_⟩
              · rw [← heq]; rfl
              · exact happ t1 (heq ▸ hn)
            · rw [if_neg hc] at heq
              exact ⟨t1, ht1, by rw [heq], heq ▸ hn⟩
          refine ⟨fun t h => by simp [applyUpdate, h], hstore, ?_⟩
          intro hn
          have hrmem : result ∈ db.todos.map
              (fun t => if t.id == tid then applyUpdate tu t else t) :=
            List.mem_of_find?_eq_some hf2
          obtain ⟨t1, ht1, _, hd⟩ := hstore result hrmem hn
          exact ⟨t1, ht1, hd⟩

/-- Witness for C10: Alice updates task 5 setting only the status; the
description, already non-null, stays non-null. -/
theorem update_never_nulls_description_witness :
    (∀ t : Todo, (⟨none, none, some .completed⟩ : TodoUpdate).description = none →
      (applyUpdate ⟨none, none, some .completed⟩ t).description = t.description) ∧
    (∀ t2 ∈ (⟨[userA], [⟨5, "Buy milk", some "2 litres", "completed", 1, "2024-01-03"⟩],
        2, 6⟩ : DBState).todos, t2.description = none →
      ∃ t1 ∈ dbOwned.todos, t1.id = t2.id ∧ t1.description = none) ∧
    ((⟨5, "Buy milk", some "2 litres", "completed", 1, "2024-01-03"⟩ : Todo).description = none →
      ∃ t1 ∈ dbOwned.todos, t1.description = none) :=
  update_never_nulls_description ⟨none, none, some .completed⟩ dbOwned 5 "key-A"
    ⟨5, "Buy milk", some "2 litres", "completed", 1, "2024-01-03"⟩
    ⟨[userA], [⟨5, "Buy milk", some "2 litres", "completed", 1, "2024-01-03"⟩], 2, 6⟩ (by rfl)

end TodoAPI
